import Mathlib

/-!
Verification of the Minard combined-visualization script.

Shallow embedding of `minard_vis.py`, the single source file of the
repository.  The script is a read → transform → render pipeline:

* `load_csv` / `to_numeric` normalise the three input tables,
* `main` validates required columns, computes per-segment linewidths from
  survivor counts, groups and orders the troop route, and maps temperature
  values into a vertical band below the map.

Machine floats are modelled two ways, each faithful to a different aspect
of the code:

* real-valued denotations (`lwReal`, `tempY` over `ℚ`) for the arithmetic
  identities the spec states about the formulas;
* `FVal`, an IEEE-754-style special-value domain (finite rationals plus
  `nan`/`inf`/`-inf`) for the claims about unguarded divisions by zero.
  Finite arithmetic in `FVal` is exact rational arithmetic; no claim below
  depends on rounding, only on the exact propagation of special values,
  which IEEE 754 fixes exactly.

The two divisions by zero the script can perform behave differently and
are modelled differently: the temperature mapping at line 131 divides a
pandas Series, which follows NumPy elementwise semantics (`0/0` is NaN,
no exception), while the linewidth at line 98 divides two built-in Python
floats (`float()` at lines 74, 95 and 112), and CPython raises
`ZeroDivisionError` on a zero divisor — so that computation is modelled
as a fallible one.
-/

namespace MinardVis

/-! ## Cells and tables (the pandas DataFrame fragment the script uses)

A table is a list of named columns; a cell is a number, a raw text value,
or an explicit missing value (pandas `NaN`). -/

inductive Cell : Type
  | num (q : ℚ)
  | text (s : String)
  | na
  deriving DecidableEq, Repr

/-- A DataFrame, modelled columnwise: column name paired with its values. -/
abbrev Table : Type := List (String × List Cell)

/-- Numeric-literal parsing as `pd.to_numeric` performs it on strings:
an optional sign, a nonempty digit string, optionally a decimal point and
further digits.  Anything else fails (and `errors="coerce"` then yields
`NaN`). -/
def parseDigits : List Char → Option ℕ
  | [] => none
  | cs =>
    if cs.all Char.isDigit then
      some (cs.foldl (fun acc c => acc * 10 + (c.toNat - 48)) 0)
    else none

/-- Parse the fractional digits, returning numerator and denominator. -/
def parseFrac (cs : List Char) : Option ℚ :=
  match parseDigits cs with
  | some n => some ((n : ℚ) / ((10 : ℚ) ^ cs.length))
  | none => none

/-- Parse an unsigned decimal literal `digits[.digits]`. -/
def parseUnsigned (cs : List Char) : Option ℚ :=
  match cs.splitOn '.' with
  | [whole] => (parseDigits whole).map (fun n => (n : ℚ))
  | [whole, frac] =>
    match parseDigits whole, parseFrac frac with
    | some w, some f => some ((w : ℚ) + f)
    | _, _ => none
  | _ => none

/-- Parse a signed decimal literal. -/
def parseRat (s : String) : Option ℚ :=
  match s.data with
  | [] => none
  | c :: rest =>
    if c = '-' then (parseUnsigned rest).map (fun q => -q)
    else if c = '+' then parseUnsigned rest
    else parseUnsigned s.data

/-- One cell under `pd.to_numeric(col, errors="coerce")`: numbers stay,
parseable text becomes its number, everything else becomes `NaN`. -/
def coerceCell : Cell → Cell
  | Cell.num q => Cell.num q
  | Cell.text s =>
    match parseRat s with
    | some q => Cell.num q
    | none => Cell.na
  | Cell.na => Cell.na

/-- Model of `to_numeric` (minard_vis.py lines 29–33).  The Python loop walks the
requested names and overwrites each one that is present in the frame; on a
frame with distinct column names that equals mapping every column whose
name is requested through `coerceCell` and leaving the rest untouched. -/
def to_numeric (df : Table) (cols : List String) : Table :=
  df.map fun c => if c.1 ∈ cols then (c.1, c.2.map coerceCell) else c

/-- A cell is numeric-or-missing (never raw text). -/
def numOrNA : Cell → Prop
  | Cell.num _ => True
  | Cell.text _ => False
  | Cell.na => True

instance : DecidablePred numOrNA := fun c => by
  cases c <;> simp [numOrNA] <;> infer_instance

/-! ## Temperature-to-coordinate mapping (lines 125–131), exact field view

`y_temp = y_base + (temp - temp_min) / (temp_max - temp_min) * y_span`
with `y_base = min_lat - 2.3` and `y_span = 1.4`. -/

/-- The fixed vertical span of the temperature band (line 129). -/
def y_span : ℚ := 7 / 5

/-- The base of the temperature band, below the route (line 128). -/
def y_base (min_lat : ℚ) : ℚ := min_lat - 23 / 10

/-- The temperature-to-coordinate map of line 131. -/
def tempY (tmin tmax yb ys t : ℚ) : ℚ :=
  yb + (t - tmin) / (tmax - tmin) * ys

/-- The inverse map named by the spec: recover the temperature from the
band coordinate. -/
def tempYInv (tmin tmax yb ys y : ℚ) : ℚ :=
  (y - yb) / ys * (tmax - tmin) + tmin

/-! ## IEEE-754 special values

`FVal` models a double as either a finite value (its exact rational value;
no claim below depends on rounding), `nan`, `+inf` or `-inf`.  The
operations follow the IEEE-754 rules for special operands exactly; the
square root takes the (irrelevant to the claims that use it) rounded
finite square root as a parameter `sq`, so every theorem stated over all
`sq` holds for the machine function in particular. -/

inductive FVal : Type
  | num (q : ℚ)
  | nan
  | inf
  | ninf
  deriving DecidableEq, Repr

/-- IEEE addition on special values (finite part exact). -/
def fadd : FVal → FVal → FVal
  | FVal.num a, FVal.num b => FVal.num (a + b)
  | FVal.nan, _ => FVal.nan
  | _, FVal.nan => FVal.nan
  | FVal.inf, FVal.ninf => FVal.nan
  | FVal.ninf, FVal.inf => FVal.nan
  | FVal.inf, _ => FVal.inf
  | _, FVal.inf => FVal.inf
  | FVal.ninf, _ => FVal.ninf
  | _, FVal.ninf => FVal.ninf

/-- IEEE subtraction on special values (finite part exact). -/
def fsub : FVal → FVal → FVal
  | FVal.num a, FVal.num b => FVal.num (a - b)
  | FVal.nan, _ => FVal.nan
  | _, FVal.nan => FVal.nan
  | FVal.inf, FVal.inf => FVal.nan
  | FVal.ninf, FVal.ninf => FVal.nan
  | FVal.inf, _ => FVal.inf
  | _, FVal.inf => FVal.ninf
  | FVal.ninf, _ => FVal.ninf
  | _, FVal.ninf => FVal.inf

/-- IEEE multiplication on special values (finite part exact);
`0 * inf = nan`. -/
def fmul : FVal → FVal → FVal
  | FVal.num a, FVal.num b => FVal.num (a * b)
  | FVal.nan, _ => FVal.nan
  | _, FVal.nan => FVal.nan
  | FVal.inf, FVal.inf => FVal.inf
  | FVal.inf, FVal.ninf => FVal.ninf
  | FVal.ninf, FVal.inf => FVal.ninf
  | FVal.ninf, FVal.ninf => FVal.inf
  | FVal.num a, FVal.inf =>
    if a = 0 then FVal.nan else if 0 < a then FVal.inf else FVal.ninf
  | FVal.inf, FVal.num a =>
    if a = 0 then FVal.nan else if 0 < a then FVal.inf else FVal.ninf
  | FVal.num a, FVal.ninf =>
    if a = 0 then FVal.nan else if 0 < a then FVal.ninf else FVal.inf
  | FVal.ninf, FVal.num a =>
    if a = 0 then FVal.nan else if 0 < a then FVal.ninf else FVal.inf

/-- IEEE (NumPy/pandas elementwise) division on special values;
`0 / 0 = nan`, `x / 0 = ±inf` for finite nonzero `x` (finite part exact).
This is the semantics of the Series division at line 131.  Built-in
Python float division instead raises `ZeroDivisionError` on a zero
divisor; that is modelled where it occurs, in `lwFloat`. -/
def fdiv : FVal → FVal → FVal
  | FVal.num a, FVal.num b =>
    if b = 0 then
      if a = 0 then FVal.nan
      else if 0 < a then FVal.inf else FVal.ninf
    else FVal.num (a / b)
  | FVal.nan, _ => FVal.nan
  | _, FVal.nan => FVal.nan
  | FVal.inf, FVal.num _ => FVal.inf
  | FVal.ninf, FVal.num _ => FVal.ninf
  | FVal.num _, FVal.inf => FVal.num 0
  | FVal.num _, FVal.ninf => FVal.num 0
  | _, _ => FVal.nan

/-- IEEE square root on special values: `sqrt nan = nan`,
`sqrt (-x) = nan` for `x > 0`, `sqrt inf = inf`.  On nonnegative finite
input the machine result is the parameter `sq` (every theorem below that
uses `fsqrt` is stated for all `sq`, so it holds for the rounded IEEE
square root in particular). -/
def fsqrt (sq : ℚ → ℚ) : FVal → FVal
  | FVal.num q => if q < 0 then FVal.nan else FVal.num (sq q)
  | FVal.nan => FVal.nan
  | FVal.inf => FVal.inf
  | FVal.ninf => FVal.nan

/-- Float-level linewidth of line 98:
`0.5 + 11.5 * np.sqrt(surv / max_surv)`.  Both `surv` and `max_surv` are
built-in Python floats there (`float()` at lines 74, 95 and 112), so the
division is CPython float division: it raises `ZeroDivisionError` when
the divisor is `0.0` (for any numerator), and is exact otherwise.  On
success, `np.sqrt` and the subsequent NumPy-scalar arithmetic propagate
special values without raising (`fsqrt` of a negative is `nan`). -/
def lwFloat (sq : ℚ → ℚ) (surv maxSurv : ℚ) : Except String FVal :=
  if maxSurv = 0 then Except.error "ZeroDivisionError: float division by zero"
  else
    Except.ok (fadd (FVal.num (1 / 2))
      (fmul (FVal.num (23 / 2)) (fsqrt sq (FVal.num (surv / maxSurv)))))

/-- Float-level temperature mapping of line 131:
`y_base + (t - temp_min) / (temp_max - temp_min) * y_span`. -/
def tempYFloat (tmin tmax yb ys t : ℚ) : FVal :=
  fadd (FVal.num yb)
    (fmul (fdiv (fsub (FVal.num t) (FVal.num tmin))
                (fsub (FVal.num tmax) (FVal.num tmin)))
          (FVal.num ys))

/-! ## Linewidth formula (lines 95–98), real-valued denotation

`surv = (p1.survivors + p2.survivors) / 2`,
`lw = 0.5 + 11.5 * np.sqrt(surv / max_surv)`. -/

/-- Real-valued denotation of the linewidth computed at line 98. -/
noncomputable def lwReal (surv maxSurv : ℝ) : ℝ :=
  0.5 + 11.5 * Real.sqrt (surv / maxSurv)

/-- Linewidth of one route segment (lines 95–98): the two endpoint
survivor counts are averaged before scaling. -/
noncomputable def segLwReal (s1 s2 maxSurv : ℝ) : ℝ :=
  lwReal ((s1 + s2) / 2) maxSurv

/-! ## The troops table and the route-segment construction (lines 88–116)

After `to_numeric` the numeric troop columns hold rationals; a typed row
carries every column the script touches, and the table records which
columns are actually present (`direction` stays a string: it is not in the
`to_numeric` list at line 47). -/

structure TroopRow : Type where
  X : ℚ
  long : ℚ
  lat : ℚ
  survivors : ℚ
  group : ℚ
  direction : String
  deriving DecidableEq, Repr

structure TroopsTable : Type where
  cols : List String
  rows : List TroopRow

structure TempRow : Type where
  long : ℚ
  temp : ℚ
  date : String
  deriving DecidableEq, Repr

structure TempTable : Type where
  cols : List String
  rows : List TempRow

structure CityRow : Type where
  long : ℚ
  lat : ℚ
  city : String
  deriving DecidableEq, Repr

structure CitiesTable : Type where
  cols : List String
  rows : List CityRow

inductive LineStyle : Type
  | solid
  | dashed
  deriving DecidableEq, Repr

/-- One drawn route segment: its two endpoint records, the outcome of
the float linewidth computation of line 98 (which raises on a zero
`max_surv`) and the linestyle of line 101. -/
structure Segment : Type where
  p1 : TroopRow
  p2 : TroopRow
  lw : Except String FVal
  style : LineStyle
  deriving Repr

/-- Model of `sort_values("X")`: stable sort by the sequence key. -/
def sortByX (l : List TroopRow) : List TroopRow :=
  l.insertionSort (fun a b => a.X ≤ b.X)

/-- The groupby key of line 89. -/
def keyOf (r : TroopRow) : ℚ × String := (r.group, r.direction)

/-- Lexicographic order on groupby keys (pandas iterates groups in sorted
key order). -/
def keyLE (k1 k2 : ℚ × String) : Prop :=
  k1.1 < k2.1 ∨ (k1.1 = k2.1 ∧ k1.2 ≤ k2.2)

instance : DecidableRel keyLE := fun k1 k2 => by
  unfold keyLE; infer_instance

/-- The distinct groupby keys in sorted order (pandas `groupby` with its
default `sort=True`). -/
def groupKeys (rows : List TroopRow) : List (ℚ × String) :=
  ((rows.map keyOf).dedup).insertionSort keyLE

/-- Consecutive pairs of a list: the `(gdf.iloc[i], gdf.iloc[i+1])` pairs
of the loops at lines 92 and 109. -/
def pairs {α : Type} (l : List α) : List (α × α) := l.zip l.tail

/-- Python `str.upper()` on the character sequence of a string (ASCII
case mapping, which is all the direction values exercise). -/
def pyUpper (s : String) : List Char := s.data.map Char.toUpper

/-- Line 101: `"-" if str(direction).upper().startswith("A") else "--"`.
`startswith("A")` is the test that the character sequence begins with the
single character A. -/
def styleOf (direction : String) : LineStyle :=
  if ['A'].isPrefixOf (pyUpper direction) then LineStyle.solid else LineStyle.dashed

/-- Lines 95–98 for one pair of rows: average the survivor counts, then
scale.  (The float average of two exactly-represented counts is modelled
exactly; no claim depends on its rounding.) -/
def mkSeg (sq : ℚ → ℚ) (maxSurv : ℚ) (style : LineStyle) (p : TroopRow × TroopRow) :
    Segment :=
  { p1 := p.1, p2 := p.2
    lw := lwFloat sq ((p.1.survivors + p.2.survivors) / 2) maxSurv
    style := style }

/-- The route drawing of lines 88–116.  With `group` and `direction`
present the rows are grouped by `(group, direction)`, each group is sorted
by `X` when present, and consecutive pairs become segments styled from the
group's direction.  Otherwise all rows form one sequence (sorted by `X`
when present) drawn solid. -/
def buildSegments (sq : ℚ → ℚ) (t : TroopsTable) (maxSurv : ℚ) : List Segment :=
  if "group" ∈ t.cols ∧ "direction" ∈ t.cols then
    (groupKeys t.rows).flatMap fun k =>
      let g := t.rows.filter (fun r => keyOf r = k)
      let g := if "X" ∈ t.cols then sortByX g else g
      (pairs g).map (mkSeg sq maxSurv (styleOf k.2))
  else
    let rs := if "X" ∈ t.cols then sortByX t.rows else t.rows
    (pairs rs).map (mkSeg sq maxSurv LineStyle.solid)

/-! ## The main pipeline after loading (lines 52–116)

The model starts from the already-loaded, already-coerced typed tables
(`load_csv` is file I/O; the coercion of raw cells is `to_numeric` above).
It performs the pre-sort of lines 52–60, then the column checks of lines
63–72 in program order, and only on success reaches the rendering stage —
so an `Except.error` result means the run aborted before any drawing call
(the figure is only created at line 78).  Of the drawing stage the model
returns the route segments, the output the claims quantify over; city
markers and the temperature curve are drawn after them and add nothing the
claims mention. -/

/-- Lexicographic order for `sort_values(["group", "direction", "X"])`
(line 53). -/
def rowLE3 (a b : TroopRow) : Prop :=
  a.group < b.group ∨
    (a.group = b.group ∧
      (a.direction < b.direction ∨ (a.direction = b.direction ∧ a.X ≤ b.X)))

instance : DecidableRel rowLE3 := fun a b => by
  unfold rowLE3; infer_instance

/-- The pre-sort of lines 52–55. -/
def sortTroops (t : TroopsTable) : TroopsTable :=
  if "group" ∈ t.cols ∧ "direction" ∈ t.cols ∧ "X" ∈ t.cols then
    { t with rows := t.rows.insertionSort rowLE3 }
  else if "X" ∈ t.cols then
    { t with rows := sortByX t.rows }
  else t

/-- Required columns per table (lines 63–65). -/
def neededTroops : List String := ["long", "lat", "survivors"]

def neededTemp : List String := ["long", "temp"]

def neededCities : List String := ["long", "lat", "city"]

/-- The `ValueError` message of line 68.  (Python renders the sorted
column list with quoted elements; the quoting is immaterial.) -/
def msgTroops : String := "Troops CSV must include columns: [lat, long, survivors]"

/-- The `ValueError` message of line 70. -/
def msgTemp : String := "Temp CSV must include columns: [long, temp]"

/-- The `ValueError` message of line 72. -/
def msgCities : String := "Cities CSV must include columns: [city, lat, long]"

/-- Model of `max_surv = float(troops["survivors"].max())` (line 74).  Pandas
`max` of an empty column is `NaN`; the claims only use nonempty tables,
where the fold below is the exact maximum. -/
def colMax : List ℚ → ℚ
  | [] => 0
  | x :: xs => xs.foldl max x

/-- Model of `main` after loading and coercion: pre-sort, validate in program
order, then render the route. -/
def mainModel (sq : ℚ → ℚ) (troops : TroopsTable) (temp : TempTable)
    (cities : CitiesTable) : Except String (List Segment) :=
  let troops := sortTroops troops
  if ∀ c ∈ neededTroops, c ∈ troops.cols then
    if ∀ c ∈ neededTemp, c ∈ temp.cols then
      if ∀ c ∈ neededCities, c ∈ cities.cols then
        let maxSurv := colMax (troops.rows.map TroopRow.survivors)
        Except.ok (buildSegments sq troops maxSurv)
      else Except.error msgCities
    else Except.error msgTemp
  else Except.error msgTroops

instance : IsTotal TroopRow (fun a b => a.X ≤ b.X) :=
  ⟨fun a b => le_total a.X b.X⟩

instance : IsTrans TroopRow (fun a b => a.X ≤ b.X) :=
  ⟨fun _ _ _ hab hbc => le_trans hab hbc⟩

/-! ## Concrete instances used by the witnesses and counterexample -/

/-- A raw troops column sample: a numeric string, an unparseable string
and a missing value. -/
def dfW : Table :=
  [("survivors", [Cell.text "400000", Cell.text "unknown", Cell.na]),
   ("city", [Cell.text "Smolensk", Cell.text "Wilna", Cell.text "Moscou"])]

def colsW : List String := ["survivors", "group"]

/-- A troops table lacking the `survivors` column. -/
def troopsNoSurv : TroopsTable :=
  { cols := ["long", "lat", "group", "direction", "X"], rows := [] }

def tempOK : TempTable := { cols := ["long", "temp", "date", "X"], rows := [] }

def citiesOK : CitiesTable := { cols := ["long", "lat", "city"], rows := [] }

/-- First point of the spec example route pair. -/
def rA1 : TroopRow :=
  { X := 1, long := 30, lat := 55, survivors := 400000, group := 1,
    direction := "advance" }

/-- Second point of the spec example route pair. -/
def rA2 : TroopRow :=
  { X := 2, long := 31, lat := 54, survivors := 300000, group := 1,
    direction := "advance" }

/-- A grouped troops table whose direction value is lowercase. -/
def tLower : TroopsTable :=
  { cols := ["long", "lat", "survivors", "group", "direction", "X"],
    rows := [rA1, rA2] }

/-- The one segment the code draws for `tLower`. -/
def segW : Segment :=
  { p1 := rA1, p2 := rA2,
    lw := lwFloat id ((rA1.survivors + rA2.survivors) / 2) 400000,
    style := styleOf "advance" }

/-- A troops table whose survivor counts are all zero. -/
def tZero : TroopsTable :=
  { cols := ["long", "lat", "survivors"],
    rows := [{ X := 1, long := 30, lat := 55, survivors := 0, group := 1,
               direction := "A" },
             { X := 2, long := 31, lat := 54, survivors := 0, group := 1,
               direction := "A" }] }

/-! ## Helper lemmas -/

/-- Coercion always produces a number or a missing value. -/
lemma coerceCell_numOrNA (v : Cell) : numOrNA (coerceCell v) := by
  cases v with
  | num q => trivial
  | text s =>
    simp only [coerceCell]
    cases parseRat s <;> trivial
  | na => trivial

/-- Both components of a consecutive pair are list members. -/
lemma mem_of_mem_pairs {α : Type} {p : α × α} {l : List α} (h : p ∈ pairs l) :
    p.1 ∈ l ∧ p.2 ∈ l := by
  have h' : (p.1, p.2) ∈ l.zip l.tail := by simpa [pairs] using h
  obtain ⟨h1, h2⟩ := List.of_mem_zip h'
  exact ⟨h1, List.mem_of_mem_tail h2⟩

/-- Consecutive pairs of a sorted list are related. -/
lemma pairs_rel_of_sorted {α : Type} {r : α → α → Prop} :
    ∀ {l : List α}, l.Sorted r → ∀ p ∈ pairs l, r p.1 p.2
  | [], _, _, hp => by simp [pairs] at hp
  | [_], _, _, hp => by simp [pairs] at hp
  | a :: b :: l, h, p, hp => by
    simp only [pairs, List.tail_cons, List.zip_cons_cons, List.mem_cons] at hp
    rcases hp with rfl | hp
    · exact (List.sorted_cons.mp h).1 b (List.mem_cons_self b l)
    · exact pairs_rel_of_sorted (List.sorted_cons.mp h).2 p
        (by simpa [pairs] using hp)

/-- Sorting by the sequence key keeps exactly the same members. -/
lemma mem_sortByX {a : TroopRow} {l : List TroopRow} : a ∈ sortByX l ↔ a ∈ l :=
  List.mem_insertionSort _

/-- Sorting by the sequence key yields a list sorted by it. -/
lemma sortByX_sorted (l : List TroopRow) :
    (sortByX l).Sorted (fun a b => a.X ≤ b.X) :=
  List.sorted_insertionSort _ l

/-- Sorting by the sequence key permutes the rows. -/
lemma sortByX_perm (l : List TroopRow) : (sortByX l).Perm l :=
  List.perm_insertionSort _ l

/-- The pre-sort of lines 52–55 never touches the column set. -/
lemma sortTroops_cols (t : TroopsTable) : (sortTroops t).cols = t.cols := by
  unfold sortTroops
  split_ifs <;> rfl

/-- The fold behind `colMax` stays at zero on all-zero input. -/
lemma foldl_max_zero :
    ∀ (l : List ℚ), (∀ x ∈ l, x = 0) → ∀ a, a = 0 → l.foldl max a = 0
  | [], _, a, ha => ha
  | x :: xs, h, a, ha => by
    have hx : x = 0 := h x (List.mem_cons_self x xs)
    have : max a x = 0 := by rw [ha, hx]; simp
    exact foldl_max_zero xs (fun y hy => h y (List.mem_cons_of_mem x hy)) _ this

/-- The column maximum of a nonempty all-zero column is zero. -/
lemma colMax_all_zero {l : List ℚ} (hne : l ≠ []) (h : ∀ x ∈ l, x = 0) :
    colMax l = 0 := by
  cases l with
  | nil => exact absurd rfl hne
  | cons x xs =>
    exact foldl_max_zero xs (fun y hy => h y (List.mem_cons_of_mem x hy)) x
      (h x (List.mem_cons_self x xs))

/-- Any linewidth computation with a zero maximum raises, whatever the
numerator. -/
lemma lwFloat_zero_raises (sq : ℚ → ℚ) (s : ℚ) :
    lwFloat sq s 0 = Except.error "ZeroDivisionError: float division by zero" := by
  simp [lwFloat]

/-- Concrete evaluation of the route construction on the
lowercase-direction table: exactly one solid segment. -/
lemma buildSegments_tLower : buildSegments id tLower 400000 = [segW] := by
  norm_num [buildSegments, tLower, groupKeys, keyOf, rA1, rA2, sortByX, pairs,
    mkSeg, segW, styleOf, pyUpper, lwFloat, fdiv, fsqrt, fmul, fadd,
    List.insertionSort, List.orderedInsert, keyLE]

/-- Master structural lemma about the route construction: every produced
segment joins two rows of the table, its linewidth is the line-98 formula
applied to the averaged endpoint survivors, and under grouping its
endpoints share the groupby key, its style is determined by the group's
direction, and its endpoints respect the sequence order. -/
lemma buildSegments_spec {sq : ℚ → ℚ} {t : TroopsTable} {m : ℚ} {s : Segment}
    (hs : s ∈ buildSegments sq t m) :
    s.p1 ∈ t.rows ∧ s.p2 ∈ t.rows ∧
    s.lw = lwFloat sq ((s.p1.survivors + s.p2.survivors) / 2) m ∧
    (("group" ∈ t.cols ∧ "direction" ∈ t.cols) →
      keyOf s.p1 = keyOf s.p2 ∧ s.style = styleOf s.p1.direction ∧
      ("X" ∈ t.cols → s.p1.X ≤ s.p2.X)) := by
  unfold buildSegments at hs
  split at hs
  case isTrue hgd =>
    rw [List.mem_flatMap] at hs
    obtain ⟨k, -, hk⟩ := hs
    rw [List.mem_map] at hk
    obtain ⟨p, hp, rfl⟩ := hk
    by_cases hX : "X" ∈ t.cols
    · rw [if_pos hX] at hp
      have hmem := mem_of_mem_pairs hp
      have h1 : p.1 ∈ List.filter (fun r => decide (keyOf r = k)) t.rows :=
        mem_sortByX.mp hmem.1
      have h2 : p.2 ∈ List.filter (fun r => decide (keyOf r = k)) t.rows :=
        mem_sortByX.mp hmem.2
      rw [List.mem_filter] at h1 h2
      have hk1 : keyOf p.1 = k := by simpa using h1.2
      have hk2 : keyOf p.2 = k := by simpa using h2.2
      refine ⟨h1.1, h2.1, rfl, fun _ => ⟨hk1.trans hk2.symm, ?_, fun _ => ?_⟩⟩
      · show styleOf k.2 = styleOf p.1.direction
        rw [← hk1]; rfl
      · exact pairs_rel_of_sorted (sortByX_sorted _) p hp
    · rw [if_neg hX] at hp
      have hmem := mem_of_mem_pairs hp
      have h1 := hmem.1
      have h2 := hmem.2
      rw [List.mem_filter] at h1 h2
      have hk1 : keyOf p.1 = k := by simpa using h1.2
      have hk2 : keyOf p.2 = k := by simpa using h2.2
      refine ⟨h1.1, h2.1, rfl, fun _ => ⟨hk1.trans hk2.symm, ?_, fun hX2 => absurd hX2 hX⟩⟩
      show styleOf k.2 = styleOf p.1.direction
      rw [← hk1]; rfl
  case isFalse hgd =>
    rw [List.mem_map] at hs
    obtain ⟨p, hp, rfl⟩ := hs
    by_cases hX : "X" ∈ t.cols
    · rw [if_pos hX] at hp
      have hmem := mem_of_mem_pairs hp
      exact ⟨mem_sortByX.mp hmem.1, mem_sortByX.mp hmem.2, rfl,
        fun hgd2 => absurd hgd2 hgd⟩
    · rw [if_neg hX] at hp
      have hmem := mem_of_mem_pairs hp
      exact ⟨hmem.1, hmem.2, rfl, fun hgd2 => absurd hgd2 hgd⟩

/-! ## Claim theorems -/

/-- C3: the temperature-to-coordinate mapping
`t ↦ y_base + (t - temp_min) / (temp_max - temp_min) * y_span` is affine
with nonzero slope, and under `temp_min ≠ temp_max` and `y_span ≠ 0` the
inverse map `y ↦ (y - y_base) / y_span * (temp_max - temp_min) + temp_min`
recovers the original temperature exactly (over the rationals). -/
theorem temp_map_affine_and_invertible (tmin tmax yb ys : ℚ)
    (h1 : tmin ≠ tmax) (h2 : ys ≠ 0) :
    (∃ a b : ℚ, a ≠ 0 ∧ ∀ t, tempY tmin tmax yb ys t = a * t + b) ∧
    (∀ t, tempYInv tmin tmax yb ys (tempY tmin tmax yb ys t) = t) := by
  have hd : tmax - tmin ≠ 0 := sub_ne_zero.mpr (Ne.symm h1)
  constructor
  · refine ⟨ys / (tmax - tmin), yb - tmin * ys / (tmax - tmin),
      div_ne_zero h2 hd, fun t => ?_⟩
    unfold tempY
    field_simp
    ring
  · intro t
    unfold tempY tempYInv
    field_simp
    ring

/-- Witness for C3: round-tripping the temperature −21 °C through the map
built from min −30, max 0, base 52.7, span 1.4 returns −21. -/
theorem temp_map_affine_and_invertible_witness :
    tempYInv (-30) 0 (527/10) (7/5) (tempY (-30) 0 (527/10) (7/5) (-21)) = -21 :=
  (temp_map_affine_and_invertible (-30) 0 (527/10) (7/5)
    (by norm_num) (by norm_num)).2 (-21)

/-- C7: when `temp_min ≠ temp_max`, the dataset maximum temperature maps
exactly to `y_base + y_span`, and the dataset minimum maps exactly to
`y_base`. -/
theorem temp_extremes_hit_band_edges (tmin tmax yb ys : ℚ) (h : tmin ≠ tmax) :
    tempY tmin tmax yb ys tmax = yb + ys ∧ tempY tmin tmax yb ys tmin = yb := by
  have hd : tmax - tmin ≠ 0 := sub_ne_zero.mpr (Ne.symm h)
  constructor
  · unfold tempY
    field_simp
  · unfold tempY
    field_simp

/-- Witness for C7: with min −30 and max 0, the extremes land on the band
edges built from base 52.7 and span 1.4. -/
theorem temp_extremes_hit_band_edges_witness :
    tempY (-30) 0 (527/10) (7/5) 0 = 527/10 + 7/5 ∧
    tempY (-30) 0 (527/10) (7/5) (-30) = 527/10 :=
  temp_extremes_hit_band_edges (-30) 0 (527/10) (7/5) (by norm_num)

/-- C4 (code evaluated at the failing input): with every temperature equal
to −10 the denominator `temp_max - temp_min` of line 131 is exactly zero,
and the float evaluation of the mapping is `0/0 = NaN`, not a band
coordinate — the division is unguarded. -/
theorem temp_equal_min_max_divides_by_zero :
    fsub (FVal.num (-10)) (FVal.num (-10)) = FVal.num 0 ∧
    tempYFloat (-10) (-10) (527/10) (7/5) (-10) = FVal.nan := by
  constructor
  · simp [fsub]
  · unfold tempYFloat
    simp [fsub, fdiv, fmul, fadd]

/-- C8: the normalizer is a total function (it never raises): it keeps
every column name unchanged, every value of a requested, present column
comes out numeric or missing, and a string that does not parse as a
number coerces to the explicit missing value. -/
theorem to_numeric_never_raises_and_coerces (df : Table) (cols : List String) :
    (to_numeric df cols).map Prod.fst = df.map Prod.fst ∧
    (∀ p ∈ to_numeric df cols, p.1 ∈ cols → ∀ v ∈ p.2, numOrNA v) ∧
    (∀ s : String, parseRat s = none → coerceCell (Cell.text s) = Cell.na) := by
  refine ⟨?_, ?_, ?_⟩
  · unfold to_numeric
    rw [List.map_map]
    apply List.map_congr_left
    intro c _
    by_cases hmem : c.1 ∈ cols
    · rw [Function.comp_apply, if_pos hmem]
    · rw [Function.comp_apply, if_neg hmem]
  · intro p hp hpc v hv
    unfold to_numeric at hp
    rw [List.mem_map] at hp
    obtain ⟨c, _, rfl⟩ := hp
    by_cases hmem : c.1 ∈ cols
    · rw [if_pos hmem] at hv
      rw [List.mem_map] at hv
      obtain ⟨w, _, rfl⟩ := hv
      exact coerceCell_numOrNA w
    · rw [if_neg hmem] at hpc
      exact absurd hpc hmem
  · intro s hsn
    simp [coerceCell, hsn]

/-- Witness for C8: on a concrete troops column holding the strings
"400000" and "unknown" and a missing value, the normalizer keeps the
column names, coerced cells are numeric-or-missing, and the unparseable
string coerces to missing. -/
theorem to_numeric_never_raises_and_coerces_witness :
    (to_numeric dfW colsW).map Prod.fst = dfW.map Prod.fst ∧
    numOrNA (Cell.num 400000) ∧
    coerceCell (Cell.text "unknown") = Cell.na :=
  ⟨(to_numeric_never_raises_and_coerces dfW colsW).1,
   (to_numeric_never_raises_and_coerces dfW colsW).2.1
     ("survivors", [Cell.num 400000, Cell.na, Cell.na]) (by decide) (by decide)
     (Cell.num 400000) (by decide),
   (to_numeric_never_raises_and_coerces dfW colsW).2.2 "unknown" (by decide)⟩

/-- C10: the normalizer returns a table with the same columns in the same
order, each column keeping its name and its number of rows, and every
column whose name is not requested is returned identically. -/
theorem to_numeric_preserves_untouched_columns (df : Table) (cols : List String) :
    List.Forall₂
      (fun c c' => c.1 = c'.1 ∧ c.2.length = c'.2.length ∧ (c.1 ∉ cols → c' = c))
      df (to_numeric df cols) := by
  unfold to_numeric
  induction df with
  | nil => simp
  | cons c cs ih =>
    rw [List.map_cons]
    constructor
    · by_cases hmem : c.1 ∈ cols
      · rw [if_pos hmem]
        exact ⟨rfl, (List.length_map _ _).symm, fun h => absurd hmem h⟩
      · rw [if_neg hmem]
        exact ⟨rfl, rfl, fun _ => rfl⟩
    · exact ih

/-- Witness for C10: the frame property instantiated at the concrete
sample table and column list. -/
theorem to_numeric_preserves_untouched_columns_witness :
    List.Forall₂
      (fun c c' => c.1 = c'.1 ∧ c.2.length = c'.2.length ∧ (c.1 ∉ colsW → c' = c))
      dfW (to_numeric dfW colsW) :=
  to_numeric_preserves_untouched_columns dfW colsW

/-- C1: for a consecutive route pair the computed linewidth is
`0.5 + 11.5 * sqrt(((s1 + s2) / 2) / max_surv)`, and on the spec's example
pair (survivors 400000 → 300000, maximum 400000) it is within 0.01 of
11.25. -/
theorem segment_linewidth_formula (s1 s2 m : ℝ) (hm : 0 < m) :
    segLwReal s1 s2 m = 0.5 + 11.5 * Real.sqrt (((s1 + s2) / 2) / m) ∧
    |segLwReal 400000 300000 400000 - 11.25| < 1/100 := by
  refine ⟨rfl, ?_⟩
  have h78 : ((400000 + 300000 : ℝ) / 2) / 400000 = 7/8 := by norm_num
  have hlo : (0.9354 : ℝ) < Real.sqrt (7/8) :=
    (Real.lt_sqrt (by norm_num)).mpr (by norm_num)
  have hhi : Real.sqrt ((7:ℝ)/8) < 0.9355 :=
    (Real.sqrt_lt' (by norm_num)).mpr (by norm_num)
  unfold segLwReal lwReal
  rw [h78, abs_lt]
  constructor <;> linarith

/-- Witness for C1: the example-pair linewidth is within 0.01 of 11.25. -/
theorem segment_linewidth_formula_witness :
    |segLwReal 400000 300000 400000 - 11.25| < 1/100 :=
  (segment_linewidth_formula 400000 300000 400000 (by norm_num)).2

/-- C2: for `0 ≤ s ≤ max_surv` with `max_surv > 0` the linewidth
`0.5 + 11.5 * sqrt(s / max_surv)` lies in `[0.5, 12.0]` and is monotone
non-decreasing in the survivor count. -/
theorem linewidth_bounded_and_monotone (m s s' : ℝ)
    (hm : 0 < m) (h0 : 0 ≤ s) (hsm : s ≤ m) (hss' : s ≤ s') :
    (0.5 ≤ lwReal s m ∧ lwReal s m ≤ 12) ∧ lwReal s m ≤ lwReal s' m := by
  have hnn : 0 ≤ Real.sqrt (s / m) := Real.sqrt_nonneg _
  have hle1 : Real.sqrt (s / m) ≤ 1 :=
    Real.sqrt_le_one.mpr ((div_le_one hm).mpr hsm)
  have hmono : Real.sqrt (s / m) ≤ Real.sqrt (s' / m) :=
    Real.sqrt_le_sqrt ((div_le_div_right hm).mpr hss')
  unfold lwReal
  refine ⟨⟨by linarith, by linarith⟩, by linarith⟩

/-- Witness for C2: bounds and monotonicity at survivor counts 100000 and
200000 with maximum 400000. -/
theorem linewidth_bounded_and_monotone_witness :
    (0.5 ≤ lwReal 100000 400000 ∧ lwReal 100000 400000 ≤ 12) ∧
    lwReal 100000 400000 ≤ lwReal 200000 400000 :=
  linewidth_bounded_and_monotone 400000 100000 200000
    (by norm_num) (by norm_num) (by norm_num) (by norm_num)

/-- C5: when the troops table lacks the `survivors` column (and the
temperature and cities tables have their required columns), the run fails
with the descriptive missing-column error of line 68, and it never reaches
the rendering stage (the model yields no drawn output at all). -/
theorem missing_survivors_fails_before_drawing (sq : ℚ → ℚ)
    (troops : TroopsTable) (temp : TempTable) (cities : CitiesTable)
    (h : "survivors" ∉ troops.cols)
    (ht : ∀ c ∈ neededTemp, c ∈ temp.cols)
    (hc : ∀ c ∈ neededCities, c ∈ cities.cols) :
    mainModel sq troops temp cities = Except.error msgTroops ∧
    ∀ segs, mainModel sq troops temp cities ≠ Except.ok segs := by
  have hfail : ¬ ∀ c ∈ neededTroops, c ∈ (sortTroops troops).cols := by
    rw [sortTroops_cols]
    intro hall
    exact h (hall "survivors" (by simp [neededTroops]))
  have hmain : mainModel sq troops temp cities = Except.error msgTroops := by
    unfold mainModel
    rw [if_neg hfail]
  refine ⟨hmain, fun segs hok => ?_⟩
  rw [hmain] at hok
  exact Except.noConfusion hok

/-- Witness for C5: a concrete troops table without `survivors` makes the
pipeline abort with the missing-column error. -/
theorem missing_survivors_fails_before_drawing_witness :
    mainModel id troopsNoSurv tempOK citiesOK = Except.error msgTroops :=
  (missing_survivors_fails_before_drawing id troopsNoSurv tempOK citiesOK
    (by decide) (by decide) (by decide)).1

/-- C6 counterexample: the direction string "advance" does not start with
"A", yet the code (which uppercases before testing, line 101) renders its
segment solid — refuting the claim that every direction value not starting
with "A" is rendered dashed. -/
theorem direction_lowercase_renders_solid :
    (['A'].isPrefixOf "advance".data) = false ∧
    (buildSegments id tLower 400000).map Segment.style = [LineStyle.solid] := by
  constructor
  · decide
  · decide

/-- C6 (amended): with `group` and `direction` present, every segment
joins two rows sharing the `(group, direction)` key, within-group
endpoints respect the sequence key `X` when present, and a segment is
solid exactly when the uppercased direction starts with "A" (i.e. the
test is case-insensitive); without the grouping columns all points form
one sequence, ordered by `X` when present, drawn solid. -/
theorem route_grouping_order_and_styles (sq : ℚ → ℚ) (t : TroopsTable) (m : ℚ) :
    (("group" ∈ t.cols ∧ "direction" ∈ t.cols) →
      ∀ s ∈ buildSegments sq t m,
        keyOf s.p1 = keyOf s.p2 ∧
        ("X" ∈ t.cols → s.p1.X ≤ s.p2.X) ∧
        (s.style = LineStyle.solid ↔
          (['A'].isPrefixOf (pyUpper s.p1.direction)) = true)) ∧
    (¬("group" ∈ t.cols ∧ "direction" ∈ t.cols) →
      buildSegments sq t m =
        (pairs (if "X" ∈ t.cols then sortByX t.rows else t.rows)).map
          (mkSeg sq m LineStyle.solid) ∧
      (sortByX t.rows).Perm t.rows ∧
      (sortByX t.rows).Sorted (fun a b => a.X ≤ b.X)) := by
  constructor
  · intro hgd s hs
    obtain ⟨-, -, -, hg⟩ := buildSegments_spec hs
    obtain ⟨hkey, hstyle, hX⟩ := hg hgd
    refine ⟨hkey, hX, ?_⟩
    rw [hstyle]
    unfold styleOf
    cases hA : ['A'].isPrefixOf (pyUpper s.p1.direction)
    · simp [hA]
    · simp [hA]
  · intro hgd
    refine ⟨?_, sortByX_perm _, sortByX_sorted _⟩
    unfold buildSegments
    rw [if_neg hgd]

/-- Witness for C6: the segment drawn for the concrete lowercase-direction
table shares its groupby key across endpoints and is solid because its
uppercased direction starts with "A". -/
theorem route_grouping_order_and_styles_witness :
    keyOf segW.p1 = keyOf segW.p2 ∧
    (segW.style = LineStyle.solid ↔
      (['A'].isPrefixOf (pyUpper segW.p1.direction)) = true) :=
  let h := (route_grouping_order_and_styles id tLower 400000).1
    (by decide) segW (by rw [buildSegments_tLower]; exact List.mem_singleton_self segW)
  ⟨h.1, h.2.2⟩

/-- C9 counterexample: on a concrete all-zero-survivors route the maximum
is 0 and the linewidth computation of line 98 raises
`ZeroDivisionError` — built-in Python float division by zero raises
rather than producing NaN, so the segment's linewidth is never the NaN
value the claim asserts. -/
theorem zero_survivors_raises_not_nan :
    colMax (tZero.rows.map TroopRow.survivors) = 0 ∧
    (buildSegments id tZero (colMax (tZero.rows.map TroopRow.survivors))).map
        Segment.lw =
      [Except.error "ZeroDivisionError: float division by zero"] ∧
    (buildSegments id tZero (colMax (tZero.rows.map TroopRow.survivors))).map
        Segment.lw ≠ [Except.ok FVal.nan] := by
  have hmax : colMax (tZero.rows.map TroopRow.survivors) = 0 := by
    norm_num [tZero, colMax]
  have hlist : (buildSegments id tZero
      (colMax (tZero.rows.map TroopRow.survivors))).map Segment.lw =
      [Except.error "ZeroDivisionError: float division by zero"] := by
    rw [hmax]
    have hgd : ¬("group" ∈ tZero.cols ∧ "direction" ∈ tZero.cols) := by decide
    have hX : ¬("X" ∈ tZero.cols) := by decide
    unfold buildSegments
    rw [if_neg hgd, if_neg hX]
    simp [tZero, pairs, mkSeg, lwFloat]
  refine ⟨hmax, hlist, ?_⟩
  rw [hlist]
  intro h
  simp at h

/-- C9 (amended): when every survivor count is zero, line 74 computes a
maximum of zero, and line 98 then divides zero by zero on built-in
Python floats — unguarded — so the computation raises
`ZeroDivisionError` and aborts the run: no linewidth value (NaN or
otherwise, in particular none in `[0.5, 12.0]`) is ever produced. -/
theorem all_zero_survivors_division_raises (sq : ℚ → ℚ) (t : TroopsTable)
    (hne : t.rows ≠ []) (h0 : ∀ r ∈ t.rows, r.survivors = 0) :
    colMax (t.rows.map TroopRow.survivors) = 0 ∧
    lwFloat sq 0 0 = Except.error "ZeroDivisionError: float division by zero" ∧
    ∀ s ∈ buildSegments sq t (colMax (t.rows.map TroopRow.survivors)),
      s.lw = Except.error "ZeroDivisionError: float division by zero" ∧
      ∀ v : FVal, s.lw ≠ Except.ok v := by
  have hmax : colMax (t.rows.map TroopRow.survivors) = 0 := by
    apply colMax_all_zero
    · intro hmap
      exact hne (by simpa using hmap)
    · intro x hx
      rw [List.mem_map] at hx
      obtain ⟨r, hr, rfl⟩ := hx
      exact h0 r hr
  refine ⟨hmax, lwFloat_zero_raises sq 0, fun s hs => ?_⟩
  obtain ⟨-, -, hlw, -⟩ := buildSegments_spec hs
  have herr : s.lw = Except.error "ZeroDivisionError: float division by zero" := by
    rw [hlw, hmax]
    exact lwFloat_zero_raises sq _
  refine ⟨herr, fun v hv => ?_⟩
  rw [herr] at hv
  exact Except.noConfusion hv

/-- Witness for amended C9: on the concrete two-point zero-survivors
route the column maximum is zero and the linewidth computation raises. -/
theorem all_zero_survivors_division_raises_witness :
    colMax (tZero.rows.map TroopRow.survivors) = 0 ∧
    lwFloat id 0 0 = Except.error "ZeroDivisionError: float division by zero" :=
  let h := all_zero_survivors_division_raises id tZero (by decide) (by decide)
  ⟨h.1, h.2.1⟩

end MinardVis
